import Mathlib

/-!
Verification of the "Mouqab Al Noor Real Estate" backend (`main.py`,
`schemas.py`) against its specification, as a shallow embedding in Lean.

Embedding conventions:
* Pydantic models become Lean structures with the same field names;
  Python `Optional[T]` becomes `Option T`, `float` becomes `Rat`.
* A stored MongoDB document is a `StoredDoc α`: the store-generated 12-byte
  binary `_id` (modelled as a `Nat`) together with the entity's fields.
  After the route layer's `doc["_id"] = str(doc["_id"])` normalization a
  document is an `OutDoc α`: the same fields with the `_id` as its canonical
  hex string.
* The query dictionary built by `search_properties` is `PropQuery`: one
  optional component per dictionary key the Python code may insert.
* MongoDB's evaluation of that query against a document is `evalQuery`,
  following MongoDB operator semantics: `$regex` with the `i` option is
  case-insensitive substring search (the effective semantics for the plain
  text patterns this API passes through), `$gte`/`$lte` on a numeric bound
  are type-bracketed comparisons that do not match a null or missing field,
  a bare value is an equality match.
* A route handler returns a `HandlerResult`: either `ok` with its payload
  or `httpError status detail`, modelling a raised `HTTPException`.  The
  `try`/`except Exception` wrapper of each handler is `catchAll500`: any
  exception raised inside the `try` block — including an `HTTPException`,
  which subclasses `Exception` — is converted to a 500 whose detail is the
  `str()` of the caught exception.
-/

namespace Mouqab

/-- `schemas.py`: the `Property` Pydantic model (searchable entity). -/
structure Property where
  title_en : String
  title_ar : String
  description_en : Option String
  description_ar : Option String
  price : Rat
  currency : String
  location : String
  city : Option String
  country : Option String
  property_type : String
  bedrooms : Option Int
  bathrooms : Option Int
  area_sqft : Option Rat
  amenities : List String
  images : List String
  floor_plans : List String
  coordinates : Option (List (String × Rat))
  featured : Bool
  status : String
  listed_by : Option String
  deriving DecidableEq

/-- `schemas.py`: the `Favorite` Pydantic model. -/
structure Favorite where
  user_id : String
  property_id : String
  deriving DecidableEq

/-- `schemas.py`: the `MaintenanceRequest` Pydantic model. -/
structure MaintenanceRequest where
  building : String
  unit : Option String
  category : String
  priority : String
  description : Option String
  status : String
  requested_by : Option String
  contact_phone : Option String
  photos : List String
  deriving DecidableEq

/-- A document as stored in a collection: the store-generated binary
object id (12 bytes, modelled as a `Nat`) plus the entity fields. -/
structure StoredDoc (α : Type) where
  oid : Nat
  fields : α
  deriving DecidableEq

/-- A document after the route layer replaced its `_id` by the id's
string form (`doc["_id"] = str(doc["_id"])`): every other field kept. -/
structure OutDoc (α : Type) where
  _id : String
  fields : α
  deriving DecidableEq

/-- `str(ObjectId)`: the canonical 24-character lowercase hex form of the
12-byte binary object id. -/
def objectIdStr (oid : Nat) : String :=
  let ds := Nat.toDigits 16 oid
  String.mk (List.replicate (24 - ds.length) '0' ++ ds)

/-- The route layer's id normalization `doc["_id"] = str(doc["_id"])`. -/
def stringifyId {α : Type} (d : StoredDoc α) : OutDoc α :=
  { _id := objectIdStr d.oid, fields := d.fields }

/-- `main.py`: the `SearchFilters` Pydantic model (all fields optional,
defaulting to `None`). -/
structure SearchFilters where
  q : Option String
  location : Option String
  city : Option String
  min_price : Option Rat
  max_price : Option Rat
  property_type : Option String
  bedrooms : Option Int
  bathrooms : Option Int
  featured : Option Bool
  deriving DecidableEq

/-- Python truthiness on an optional string (`if filters.q:`):
`None` and the empty string are falsy, any other string is truthy. -/
def truthyStr (v : Option String) : Option String :=
  match v with
  | some s => if s = "" then none else some s
  | none => none

/-- The MongoDB query dictionary built by `search_properties`
(`main.py` lines 71–95): one optional component per key the Python code
may insert.  `qOr` is the `"$or"` key (a case-insensitive `$regex` on
`title_en` or on `description_en` with the given pattern); `location` and
`city` are case-insensitive `$regex` conditions; `property_type` and
`featured` are equality matches; `bedrooms` and `bathrooms` are `$gte`
conditions; `price` is the `price_cond` dictionary, holding the optional
`$gte` and `$lte` bounds, inserted only when non-empty. -/
structure PropQuery where
  qOr : Option String
  location : Option String
  city : Option String
  property_type : Option String
  bedrooms : Option Int
  bathrooms : Option Int
  price : Option (Option Rat × Option Rat)
  featured : Option Bool
  deriving DecidableEq

/-- The query-builder portion of `search_properties` (`main.py` 71–95):
string filters are guarded by Python truthiness (`if filters.q:` …), the
numeric and boolean filters by `is not None`, and the two price bounds are
combined into one `price_cond` dictionary inserted only when non-empty. -/
def search_properties_query (filters : SearchFilters) : PropQuery :=
  { qOr := truthyStr filters.q
    location := truthyStr filters.location
    city := truthyStr filters.city
    property_type := truthyStr filters.property_type
    bedrooms := filters.bedrooms
    bathrooms := filters.bathrooms
    price :=
      if filters.min_price.isSome || filters.max_price.isSome then
        some (filters.min_price, filters.max_price)
      else none
    featured := filters.featured }

/-- Does the character list `p` start the character list `s`? -/
def headMatches : List Char → List Char → Bool
  | [], _ => true
  | _ :: _, [] => false
  | a :: as, b :: bs => a == b && headMatches as bs

/-- Does the character list `p` occur contiguously inside `s`? -/
def occursIn (p : List Char) : List Char → Bool
  | [] => p.isEmpty
  | b :: bs => headMatches p (b :: bs) || occursIn p bs

/-- ASCII case folding on a character list. -/
def lowerChars (s : List Char) : List Char :=
  s.map Char.toLower

/-- MongoDB `{"$regex": pat, "$options": "i"}` applied to a string value,
for the literal (metacharacter-free) patterns this API forwards:
case-insensitive substring search. -/
def containsCI (pat s : String) : Bool :=
  occursIn (lowerChars pat.toList) (lowerChars s.toList)

/-- `pat` occurs case-insensitively as a contiguous substring of `s`
(specification-side rendering of "case-insensitive substring match"). -/
def OccursCI (pat s : String) : Prop :=
  ∃ l r, lowerChars s.toList = l ++ lowerChars pat.toList ++ r

/-- Evaluation of the `"$or"` text condition: the pattern must match
`title_en` or `description_en`; a regex condition never matches a missing
(`None`) field. -/
def evalTextCond (cond : Option String) (d : Property) : Bool :=
  match cond with
  | none => true
  | some pat =>
      containsCI pat d.title_en ||
        (match d.description_en with
          | some t => containsCI pat t
          | none => false)

/-- Evaluation of a case-insensitive regex condition on an optional
string field (missing field never matches). -/
def evalStrCond (cond : Option String) (v : Option String) : Bool :=
  match cond with
  | none => true
  | some pat =>
      match v with
      | some s => containsCI pat s
      | none => false

/-- Evaluation of an exact-match condition on a string field. -/
def evalEqCond (cond : Option String) (v : String) : Bool :=
  match cond with
  | none => true
  | some t => v == t

/-- Evaluation of a `$gte` condition on an optional integer field: MongoDB
numeric comparison is type-bracketed, so a null or missing field does not
match. -/
def evalGteCond (cond : Option Int) (v : Option Int) : Bool :=
  match cond with
  | none => true
  | some n =>
      match v with
      | some b => decide (n ≤ b)
      | none => false

/-- Evaluation of the `price_cond` dictionary (`$gte` and/or `$lte`) on
the `price` field. -/
def evalPriceCond (cond : Option (Option Rat × Option Rat)) (price : Rat) : Bool :=
  match cond with
  | none => true
  | some (lo, hi) =>
      (match lo with
        | some m => decide (m ≤ price)
        | none => true) &&
      (match hi with
        | some bound => decide (price ≤ bound)
        | none => true)

/-- Evaluation of an exact-match condition on a boolean field. -/
def evalBoolCond (cond : Option Bool) (v : Bool) : Bool :=
  match cond with
  | none => true
  | some b => v == b

/-- MongoDB evaluation of a built query against a `Property` document:
conditions on distinct keys combine with logical AND; an absent key
constrains nothing. -/
def evalQuery (qy : PropQuery) (d : Property) : Bool :=
  evalTextCond qy.qOr d &&
  (match qy.location with
    | none => true
    | some pat => containsCI pat d.location) &&
  evalStrCond qy.city d.city &&
  evalEqCond qy.property_type d.property_type &&
  evalGteCond qy.bedrooms d.bedrooms &&
  evalGteCond qy.bathrooms d.bathrooms &&
  evalPriceCond qy.price d.price &&
  evalBoolCond qy.featured d.featured

/-- Modelled from the spec: the Document Store Gateway's `get_documents`
(defined in the repository's `database` module, which is not included
under `src/`): "executes a filter against the named collection, returns at
most `limit` matching records" in store-native order. -/
def get_documents {α : Type} (coll : List (StoredDoc α)) (pred : StoredDoc α → Bool)
    (limit : Nat) : List (StoredDoc α) :=
  (coll.filter pred).take limit

/-- MongoDB `find_one({"_id": oid})`: the first document of the
collection with the given object id, if any. -/
def find_one {α : Type} (coll : List (StoredDoc α)) (oid : Nat) : Option (StoredDoc α) :=
  coll.find? (fun d => d.oid == oid)

/-- MongoDB `update_one({"_id": oid}, {"$set": {"status": s}})` on the
`maintenancerequest` collection: sets the `status` field of the first
document whose `_id` matches, leaving every other field and every other
document untouched; returns the updated collection together with the
`matched_count` of the result. -/
def update_one_setStatus (coll : List (StoredDoc MaintenanceRequest)) (oid : Nat)
    (status : String) : List (StoredDoc MaintenanceRequest) × Nat :=
  match coll with
  | [] => ([], 0)
  | d :: rest =>
      if d.oid = oid then
        ({ d with fields := { d.fields with status := status } } :: rest, 1)
      else
        let res := update_one_setStatus rest oid status
        (d :: res.1, res.2)

/-- The outcome of a route handler: a successful payload, or a raised
`HTTPException` with its status code and detail string. -/
inductive HandlerResult (α : Type) where
  | ok : α → HandlerResult α
  | httpError : Nat → String → HandlerResult α
  deriving DecidableEq

/-- `str(e)` for a starlette/FastAPI `HTTPException`: `"status: detail"`. -/
def httpExceptionStr (code : Nat) (detail : String) : String :=
  toString code ++ ": " ++ detail

/-- The `except Exception as e: raise HTTPException(status_code=500,
detail=str(e))` wrapper present in each handler's `try` block.  Because
`HTTPException` subclasses `Exception`, an `HTTPException` raised inside
the `try` block (such as the 404) is also caught and re-raised as a 500
whose detail is the `str()` of the original exception. -/
def catchAll500 {α : Type} (r : HandlerResult α) : HandlerResult α :=
  match r with
  | .ok a => .ok a
  | .httpError code detail => .httpError 500 (httpExceptionStr code detail)

/-- `main.py` `search_properties` (POST /properties/search): build the
query, fetch at most 100 matching documents, stringify each `_id`. -/
def search_properties (store : List (StoredDoc Property)) (filters : SearchFilters) :
    List (OutDoc Property) :=
  (get_documents store (fun d => evalQuery (search_properties_query filters) d.fields) 100).map
    stringifyId

/-- `main.py` `get_property` (GET /properties/{property_id}): find the
document by id; when absent, `raise HTTPException(404, "Property not
found")` — which the handler's own `except Exception` clause converts to
a 500; when present, stringify its `_id` and return it. -/
def get_property (store : List (StoredDoc Property)) (oid : Nat) :
    HandlerResult (OutDoc Property) :=
  catchAll500
    (match find_one store oid with
      | none => .httpError 404 "Property not found"
      | some d => .ok (stringifyId d))

/-- `main.py` `list_favorites` (GET /favorites/{user_id}): fetch at most
200 favorites of the user, stringify each `_id`. -/
def list_favorites (store : List (StoredDoc Favorite)) (user_id : String) :
    List (OutDoc Favorite) :=
  (get_documents store (fun d => d.fields.user_id == user_id) 200).map stringifyId

/-- `main.py` `list_maintenance` (GET /maintenance-requests): the optional
`status` query parameter contributes an exact-match condition when truthy
(`if status:`); fetch at most 200 documents, stringify each `_id`. -/
def list_maintenance (store : List (StoredDoc MaintenanceRequest)) (status : Option String) :
    List (OutDoc MaintenanceRequest) :=
  (get_documents store
      (fun d =>
        match truthyStr status with
        | some s => d.fields.status == s
        | none => true)
      200).map stringifyId

/-- `main.py` `update_maintenance_status` (PATCH
/maintenance-requests/{request_id}): run `update_one` setting the new
status; when `matched_count == 0`, `raise HTTPException(404, "Maintenance
request not found")` — which the handler's own `except Exception` clause
converts to a 500.  Returns the handler outcome together with the
collection state afterwards. -/
def update_maintenance_status (store : List (StoredDoc MaintenanceRequest)) (oid : Nat)
    (status : String) : HandlerResult Unit × List (StoredDoc MaintenanceRequest) :=
  let res := update_one_setStatus store oid status
  let body : HandlerResult Unit :=
    if res.2 = 0 then .httpError 404 "Maintenance request not found" else .ok ()
  (catchAll500 body, res.1)

/-- `main.py`: the `LoginPayload` Pydantic model. -/
structure LoginPayload where
  email : String
  password : String
  deriving DecidableEq

/-- The JSON body returned by POST /auth/login. -/
structure LoginResponse where
  token : String
  deriving DecidableEq

/-- `main.py` `login` (POST /auth/login): ignores its payload and returns
the constant `{"token": "demo-token"}`. -/
def login (_ : LoginPayload) : LoginResponse :=
  { token := "demo-token" }

/-- The `SearchFilters` value in which every field is absent (`None`). -/
def emptyFilters : SearchFilters :=
  { q := none, location := none, city := none, min_price := none, max_price := none,
    property_type := none, bedrooms := none, bathrooms := none, featured := none }

/-- A sample `Property` document payload used to instantiate the
universally quantified theorems at a concrete input. -/
def sampleProperty : Property :=
  { title_en := "Palm Villa", title_ar := "Palm Villa AR",
    description_en := some "Spacious home near the marina", description_ar := none,
    price := 500, currency := "AED", location := "Dubai Marina", city := some "Dubai",
    country := some "AE", property_type := "villa", bedrooms := some 3, bathrooms := some 2,
    area_sqft := some 1200, amenities := ["pool"], images := [], floor_plans := [],
    coordinates := none, featured := true, status := "available", listed_by := none }

/-- The sample property as stored, with object id 5. -/
def sampleStoredProperty : StoredDoc Property :=
  { oid := 5, fields := sampleProperty }

/-- A sample `MaintenanceRequest` document payload. -/
def sampleMaintenance : MaintenanceRequest :=
  { building := "Tower A", unit := some "12B", category := "plumbing", priority := "medium",
    description := some "kitchen leak", status := "open", requested_by := some "u1",
    contact_phone := none, photos := [] }

/-- The sample maintenance request as stored, with object id 7. -/
def sampleStoredMaintenance : StoredDoc MaintenanceRequest :=
  { oid := 7, fields := sampleMaintenance }

/-! Helper lemmas. -/

theorem headMatches_iff (p : List Char) : ∀ s, headMatches p s = true ↔ ∃ r, s = p ++ r := by
  induction p with
  | nil => intro s; simp [headMatches]
  | cons a as ih =>
    intro s
    cases s with
    | nil => simp [headMatches]
    | cons b bs =>
      rw [headMatches, Bool.and_eq_true, beq_iff_eq, ih bs]
      constructor
      · rintro ⟨rfl, r, rfl⟩
        exact ⟨r, rfl⟩
      · rintro ⟨r, h⟩
        injection h with h1 h2
        exact ⟨h1.symm, r, h2⟩

theorem occursIn_iff (p : List Char) : ∀ s, occursIn p s = true ↔ ∃ l r, s = l ++ p ++ r := by
  intro s
  induction s with
  | nil =>
    rw [occursIn, List.isEmpty_iff]
    constructor
    · rintro rfl
      exact ⟨[], [], rfl⟩
    · rintro ⟨l, r, h⟩
      rcases List.append_eq_nil.mp (List.append_eq_nil.mp h.symm).1 with ⟨-, h2⟩
      exact h2
  | cons b bs ih =>
    rw [occursIn, Bool.or_eq_true, headMatches_iff, ih]
    constructor
    · rintro (⟨r, h⟩ | ⟨l, r, rfl⟩)
      · exact ⟨[], r, by simpa using h⟩
      · exact ⟨b :: l, r, rfl⟩
    · rintro ⟨l, r, h⟩
      cases l with
      | nil => exact Or.inl ⟨r, by simpa using h⟩
      | cons x xs =>
        injection h with h1 h2
        exact Or.inr ⟨xs, r, h2⟩

theorem containsCI_iff (pat s : String) : containsCI pat s = true ↔ OccursCI pat s := by
  rw [containsCI, OccursCI, occursIn_iff]

theorem update_one_setStatus_of_no_match (oid : Nat) (s : String) :
    ∀ coll : List (StoredDoc MaintenanceRequest),
      (∀ d ∈ coll, d.oid ≠ oid) → update_one_setStatus coll oid s = (coll, 0) := by
  intro coll
  induction coll with
  | nil => intro _; rfl
  | cons d rest ih =>
    intro h
    rw [update_one_setStatus]
    rw [if_neg (h d (List.mem_cons_self d rest))]
    rw [ih (fun d' hd' => h d' (List.mem_cons_of_mem d hd'))]

theorem update_one_setStatus_matched_pos (oid : Nat) (s : String) :
    ∀ coll : List (StoredDoc MaintenanceRequest),
      (∃ d ∈ coll, d.oid = oid) → (update_one_setStatus coll oid s).2 ≠ 0 := by
  intro coll
  induction coll with
  | nil => rintro ⟨d, hd, -⟩; cases hd
  | cons d rest ih =>
    rintro ⟨d', hd', hoid⟩
    rw [update_one_setStatus]
    by_cases hcase : d.oid = oid
    · rw [if_pos hcase]; exact one_ne_zero
    · rw [if_neg hcase]
      rcases List.mem_cons.mp hd' with rfl | hmem
      · exact absurd hoid hcase
      · exact ih ⟨d', hmem, hoid⟩

theorem update_one_setStatus_of_nodup (oid : Nat) (s : String) :
    ∀ coll : List (StoredDoc MaintenanceRequest),
      (coll.map (fun d => d.oid)).Nodup →
      (update_one_setStatus coll oid s).1 =
        coll.map (fun d =>
          if d.oid = oid then { d with fields := { d.fields with status := s } } else d) := by
  intro coll
  induction coll with
  | nil => intro _; rfl
  | cons d rest ih =>
    intro hnd
    rw [List.map_cons, List.nodup_cons] at hnd
    rw [update_one_setStatus, List.map_cons]
    by_cases hcase : d.oid = oid
    · rw [if_pos hcase, if_pos hcase]
      have hrest : ∀ d' ∈ rest, d'.oid ≠ oid := by
        intro d' hd' heq
        exact hnd.1 (List.mem_map.mpr ⟨d', hd', by rw [heq, hcase]⟩)
      have : rest.map (fun d' =>
          if d'.oid = oid then { d' with fields := { d'.fields with status := s } } else d') =
          rest.map id := by
        apply List.map_congr_left
        intro d' hd'
        rw [if_neg (hrest d' hd')]
        rfl
      rw [this, List.map_id]
    · rw [if_neg hcase, if_neg hcase]
      dsimp only
      rw [ih hnd.2]

/-! Claim theorems. -/

/-- Claim C1: the claim states that a GET /properties/{id} or PATCH
/maintenance-requests/{id} addressing no existing document yields a 404
(not a 500).  On the code this fails: the 404 `HTTPException` is raised
inside the handler's `try` block, whose `except Exception` clause catches
it (since `HTTPException` subclasses `Exception`) and re-raises it as a
500 carrying the stringified original exception.  This theorem evaluates
both handlers at an absent identifier (id 5 against an empty store) and
shows the actual response is a 500 whose detail is the stringified 404. -/
theorem notFound_surfaces_as_500 :
    get_property ([] : List (StoredDoc Property)) 5 =
      .httpError 500 "404: Property not found" ∧
    (update_maintenance_status ([] : List (StoredDoc MaintenanceRequest)) 5 "resolved").1 =
      .httpError 500 "404: Maintenance request not found" :=
  ⟨rfl, rfl⟩

/-- Claim C9: POST /auth/login returns the identical constant response
`{"token": "demo-token"}` for every pair of login payloads; the output
does not depend on the credentials in any way. -/
theorem login_constant (p p' : LoginPayload) :
    login p = login p' ∧ login p = { token := "demo-token" } :=
  ⟨rfl, rfl⟩

/-- Claim C10: in the search query builder a string filter field supplied
as the empty string contributes no condition (same query as when absent),
whereas a numeric or boolean filter field supplied with a falsy value
(`bedrooms=0`, `bathrooms=0`, `min_price=0.0`, `max_price=0.0`,
`featured=false`) does contribute its condition; only `None` is treated
as absent for those fields. -/
theorem falsy_filter_handling (f : SearchFilters) :
    search_properties_query { f with q := some "" } =
      search_properties_query { f with q := none } ∧
    search_properties_query { f with location := some "" } =
      search_properties_query { f with location := none } ∧
    search_properties_query { f with city := some "" } =
      search_properties_query { f with city := none } ∧
    search_properties_query { f with property_type := some "" } =
      search_properties_query { f with property_type := none } ∧
    (search_properties_query { f with bedrooms := some 0 }).bedrooms = some 0 ∧
    (search_properties_query { f with bathrooms := some 0 }).bathrooms = some 0 ∧
    (search_properties_query { f with min_price := some 0 }).price =
      some (some 0, f.max_price) ∧
    (search_properties_query { f with max_price := some 0 }).price =
      some (f.min_price, some 0) ∧
    (search_properties_query { f with featured := some false }).featured = some false := by
  refine ⟨?_, ?_, ?_, ?_, rfl, rfl, ?_, ?_, rfl⟩ <;>
    simp [search_properties_query, truthyStr]

/-- Claim C2: whenever `min_price` and/or `max_price` is set, the built
query carries a single inclusive range condition on `price` (holding
exactly the supplied bounds), a record satisfies that condition exactly
when `min_price ≤ price ≤ max_price` with each bound applying only when
present, and a record matched by the whole query has its price within the
bounds (records outside are excluded). -/
theorem price_range_semantics (f : SearchFilters)
    (h : f.min_price.isSome = true ∨ f.max_price.isSome = true) (d : Property) :
    (search_properties_query f).price = some (f.min_price, f.max_price) ∧
    (evalPriceCond (some (f.min_price, f.max_price)) d.price = true ↔
      (∀ m, f.min_price = some m → m ≤ d.price) ∧
      (∀ bound, f.max_price = some bound → d.price ≤ bound)) ∧
    (evalQuery (search_properties_query f) d = true →
      (∀ m, f.min_price = some m → m ≤ d.price) ∧
      (∀ bound, f.max_price = some bound → d.price ≤ bound)) := by
  have hc : (f.min_price.isSome || f.max_price.isSome) = true := by
    rcases h with h | h <;> simp [h]
  have hprice : (search_properties_query f).price = some (f.min_price, f.max_price) := by
    simp [search_properties_query, hc]
  have hiff : evalPriceCond (some (f.min_price, f.max_price)) d.price = true ↔
      (∀ m, f.min_price = some m → m ≤ d.price) ∧
      (∀ bound, f.max_price = some bound → d.price ≤ bound) := by
    rcases f.min_price with _ | m <;> rcases f.max_price with _ | bound <;>
      simp [evalPriceCond]
  refine ⟨hprice, hiff, ?_⟩
  intro hmatch
  simp only [evalQuery, Bool.and_eq_true] at hmatch
  obtain ⟨⟨⟨⟨⟨⟨⟨-, -⟩, -⟩, -⟩, -⟩, -⟩, hp⟩, -⟩ := hmatch
  rw [hprice] at hp
  exact hiff.mp hp

/-- Claim C2 witness: instantiation at `min_price=100`, `max_price=500`
and the sample property document. -/
theorem price_range_semantics_witness :
    (search_properties_query
        { emptyFilters with min_price := some 100, max_price := some 500 }).price =
      some (some 100, some 500) := by
  have h := price_range_semantics
    { emptyFilters with min_price := some 100, max_price := some 500 }
    (Or.inl rfl) sampleProperty
  exact h.1

/-- Claim C3: for a non-empty free-text filter `q`, the built text
condition matches a property record exactly when `q` occurs as a
case-insensitive substring of its `title_en` or of its `description_en`
(logical OR of the two conditions), and a record matched by the whole
query satisfies that disjunction (records where `q` occurs in neither are
excluded). -/
theorem free_text_semantics (f : SearchFilters) (s : String)
    (hq : f.q = some s) (hs : s ≠ "") (d : Property) :
    (evalTextCond (search_properties_query f).qOr d = true ↔
      (OccursCI s d.title_en ∨ ∃ t, d.description_en = some t ∧ OccursCI s t)) ∧
    (evalQuery (search_properties_query f) d = true →
      OccursCI s d.title_en ∨ ∃ t, d.description_en = some t ∧ OccursCI s t) := by
  have hqor : (search_properties_query f).qOr = some s := by
    simp [search_properties_query, truthyStr, hq, hs]
  have hiff : evalTextCond (some s) d = true ↔
      (OccursCI s d.title_en ∨ ∃ t, d.description_en = some t ∧ OccursCI s t) := by
    rcases hd : d.description_en with _ | t <;>
      simp [evalTextCond, hd, ← containsCI_iff]
  constructor
  · rw [hqor]
    exact hiff
  · intro hmatch
    simp only [evalQuery, Bool.and_eq_true] at hmatch
    obtain ⟨⟨⟨⟨⟨⟨⟨ht, -⟩, -⟩, -⟩, -⟩, -⟩, -⟩, -⟩ := hmatch
    rw [hqor] at ht
    exact hiff.mp ht

/-- Claim C3 witness: the filter `q="villa"` against the sample property,
whose `title_en` is "Palm Villa". -/
theorem free_text_semantics_witness :
    OccursCI "villa" sampleProperty.title_en ∨
      ∃ t, sampleProperty.description_en = some t ∧ OccursCI "villa" t := by
  have h := free_text_semantics { emptyFilters with q := some "villa" } "villa" rfl
    (by decide) sampleProperty
  exact h.1.mp (by decide)

/-- Claim C4: for a filter with `bedrooms` set to `n`, the built query
carries a `$gte n` condition on `bedrooms`, a record satisfies it exactly
when its `bedrooms` field is present with a value `≥ n`, and a record
matched by the whole query has such a `bedrooms` value (records with
fewer bedrooms or a null/absent field are excluded). -/
theorem bedrooms_gte_semantics (f : SearchFilters) (n : Int) (hb : f.bedrooms = some n)
    (d : Property) :
    (search_properties_query f).bedrooms = some n ∧
    (evalGteCond (some n) d.bedrooms = true ↔ ∃ b, d.bedrooms = some b ∧ n ≤ b) ∧
    (evalQuery (search_properties_query f) d = true →
      ∃ b, d.bedrooms = some b ∧ n ≤ b) := by
  have h1 : (search_properties_query f).bedrooms = some n := by
    simp [search_properties_query, hb]
  have h2 : evalGteCond (some n) d.bedrooms = true ↔ ∃ b, d.bedrooms = some b ∧ n ≤ b := by
    rcases hd : d.bedrooms with _ | b <;> simp [evalGteCond, hd]
  refine ⟨h1, h2, ?_⟩
  intro hmatch
  simp only [evalQuery, Bool.and_eq_true] at hmatch
  obtain ⟨⟨⟨⟨⟨⟨⟨-, -⟩, -⟩, -⟩, hbd⟩, -⟩, -⟩, -⟩ := hmatch
  rw [h1] at hbd
  exact h2.mp hbd

/-- Claim C4 witness: the filter `bedrooms=3` against the sample
property, which has 3 bedrooms. -/
theorem bedrooms_gte_semantics_witness :
    ∃ b, sampleProperty.bedrooms = some b ∧ (3 : Int) ≤ b := by
  have h := bedrooms_gte_semantics { emptyFilters with bedrooms := some 3 } 3 rfl
    sampleProperty
  exact h.2.1.mp (by decide)

/-- Claim C5: a PATCH /maintenance-requests/{id} whose identifier matches
an existing document (ids being unique, a store invariant) succeeds for
any status string with no enum or transition check, and afterwards that
document's `status` equals the supplied string with every other field —
and every other document — unchanged. -/
theorem update_status_frame (store : List (StoredDoc MaintenanceRequest)) (oid : Nat)
    (s : String) (hmem : ∃ d ∈ store, d.oid = oid)
    (hnd : (store.map (fun d => d.oid)).Nodup) :
    (update_maintenance_status store oid s).1 = .ok () ∧
    (update_maintenance_status store oid s).2 =
      store.map (fun d =>
        if d.oid = oid then { d with fields := { d.fields with status := s } } else d) := by
  have hm := update_one_setStatus_matched_pos oid s store hmem
  constructor
  · simp only [update_maintenance_status]
    rw [if_neg hm]
    rfl
  · simp only [update_maintenance_status]
    exact update_one_setStatus_of_nodup oid s store hnd

/-- Claim C5 witness: updating the sample stored maintenance request (id
7) to status "in_progress". -/
theorem update_status_frame_witness :
    (update_maintenance_status [sampleStoredMaintenance] 7 "in_progress").1 = .ok () ∧
    (update_maintenance_status [sampleStoredMaintenance] 7 "in_progress").2 =
      [sampleStoredMaintenance].map (fun d =>
        if d.oid = 7 then { d with fields := { d.fields with status := "in_progress" } }
        else d) :=
  update_status_frame [sampleStoredMaintenance] 7 "in_progress"
    ⟨sampleStoredMaintenance, List.mem_singleton_self _, rfl⟩ (by decide)

/-- Claim C6: the claim states that a PATCH /maintenance-requests/{id}
whose identifier matches no stored document fails as not-found and leaves
the store unchanged.  On the code the frame half holds — no document is
created, deleted, or modified — but the response is a 500 rather than a
404: the raised 404 `HTTPException` is caught by the handler's own
`except Exception` clause and re-raised as a 500 carrying the stringified
original exception. -/
theorem update_status_missing_id (store : List (StoredDoc MaintenanceRequest)) (oid : Nat)
    (s : String) (h : ∀ d ∈ store, d.oid ≠ oid) :
    (update_maintenance_status store oid s).2 = store ∧
    (update_maintenance_status store oid s).1 =
      .httpError 500 "404: Maintenance request not found" := by
  have hu := update_one_setStatus_of_no_match oid s store h
  constructor
  · simp only [update_maintenance_status, hu]
  · simp only [update_maintenance_status, hu]
    rfl

/-- Claim C6 witness: updating id 9, absent from a store holding only the
sample maintenance request (id 7). -/
theorem update_status_missing_id_witness :
    (update_maintenance_status [sampleStoredMaintenance] 9 "closed").2 =
      [sampleStoredMaintenance] ∧
    (update_maintenance_status [sampleStoredMaintenance] 9 "closed").1 =
      .httpError 500 "404: Maintenance request not found" :=
  update_status_missing_id [sampleStoredMaintenance] 9 "closed" (by decide)

theorem mem_get_documents_stringified {α : Type} (coll : List (StoredDoc α))
    (pred : StoredDoc α → Bool) (limit : Nat) (o : OutDoc α)
    (ho : o ∈ (get_documents coll pred limit).map stringifyId) :
    ∃ d ∈ coll, o = stringifyId d ∧ o._id = objectIdStr d.oid := by
  obtain ⟨d, hd, rfl⟩ := List.mem_map.mp ho
  rw [get_documents] at hd
  exact ⟨d, List.mem_of_mem_filter (List.mem_of_mem_take hd), rfl, rfl⟩

/-- Claim C7: a search filter with every field absent produces a query
matching every property record, and the listing endpoints cap their
result sets at their limits: 100 records for POST /properties/search, 200
for GET /favorites/{user_id} and GET /maintenance-requests. -/
theorem empty_filter_matches_all (pstore : List (StoredDoc Property))
    (fstore : List (StoredDoc Favorite)) (mstore : List (StoredDoc MaintenanceRequest))
    (d : Property) (uid : String) (st : Option String) :
    evalQuery (search_properties_query emptyFilters) d = true ∧
    (search_properties pstore emptyFilters).length ≤ 100 ∧
    (list_favorites fstore uid).length ≤ 200 ∧
    (list_maintenance mstore st).length ≤ 200 := by
  refine ⟨rfl, ?_, ?_, ?_⟩ <;>
    simp only [search_properties, list_favorites, list_maintenance, get_documents,
      List.length_map] <;>
    exact List.length_take_le _ _

/-- Claim C8: every document in a successful response from POST
/properties/search, GET /favorites/{user_id}, GET /maintenance-requests,
or GET /properties/{id} comes from the store with its `_id` replaced by
the canonical hex-string form of its store-generated binary object id. -/
theorem id_stringified (pstore : List (StoredDoc Property))
    (fstore : List (StoredDoc Favorite)) (mstore : List (StoredDoc MaintenanceRequest))
    (f : SearchFilters) (uid : String) (st : Option String) (oid : Nat) :
    (∀ o ∈ search_properties pstore f,
      ∃ d ∈ pstore, o = stringifyId d ∧ o._id = objectIdStr d.oid) ∧
    (∀ o ∈ list_favorites fstore uid,
      ∃ d ∈ fstore, o = stringifyId d ∧ o._id = objectIdStr d.oid) ∧
    (∀ o ∈ list_maintenance mstore st,
      ∃ d ∈ mstore, o = stringifyId d ∧ o._id = objectIdStr d.oid) ∧
    (∀ o, get_property pstore oid = .ok o →
      ∃ d ∈ pstore, o = stringifyId d ∧ o._id = objectIdStr d.oid) := by
  refine ⟨?_, ?_, ?_, ?_⟩
  · intro o ho
    exact mem_get_documents_stringified pstore _ 100 o ho
  · intro o ho
    exact mem_get_documents_stringified fstore _ 200 o ho
  · intro o ho
    exact mem_get_documents_stringified mstore _ 200 o ho
  · intro o ho
    rw [get_property] at ho
    rcases hf : find_one pstore oid with _ | d
    · rw [hf] at ho
      exact absurd ho (by simp [catchAll500])
    · rw [hf] at ho
      have hod : stringifyId d = o := by simpa [catchAll500] using ho
      rw [find_one] at hf
      exact ⟨d, List.mem_of_find?_eq_some hf, hod.symm, hod ▸ rfl⟩

/-- Claim C8 witness: the search endpoint over a one-document store,
whose single returned document is the sample property with its `_id`
stringified. -/
theorem id_stringified_witness :
    ∃ d ∈ [sampleStoredProperty], stringifyId sampleStoredProperty = stringifyId d ∧
      (stringifyId sampleStoredProperty)._id = objectIdStr d.oid := by
  have h := id_stringified [sampleStoredProperty] [] [] emptyFilters "u1" none 5
  exact h.1 (stringifyId sampleStoredProperty) (by decide)

end Mouqab
